import Mathlib

/-!
Shallow embedding of `src/main.rs` of the rtmp-slate-fallback supervisor.

The program builds two GStreamer pipelines:
  * an RTMP ingestion pipeline (`build_rtmp_pipeline`), a `playbin3` named
    "rtmp_source" whose video sink is `identity name=id ! interpipesink name=rtmp`,
    with a bus watch implementing the recovery state machine
    (Error -> throttled restart, Buffering -> pause/resume, Eos -> restart,
    everything else -> `default_handle_message`);
  * a compositing pipeline (`build_compositor_pipeline`), a pipeline named
    "video_mixer" mixing the interpipe-fed live input (compositor pad sink_0,
    linked first) with a videotestsrc fallback (pad sink_1, linked second),
    with a bus watch that only calls `default_handle_message`.

The embedding models the configuration each builder applies as an ordered list
of property assignments, and each bus-watch closure as a function from the
message (plus an environment giving the results of the fallible engine calls)
to either the list of side effects it performs, or a panic (`Except.error`),
mirroring the Rust `.unwrap()` calls.
-/

namespace RtmpSlate

/-- GStreamer pipeline states used by the program (`gst::State`). -/
inductive GstState where
  | null
  | ready
  | paused
  | playing
deriving DecidableEq, Repr

/-- Values passed to `set_property` calls in `main.rs`. -/
inductive PropValue where
  | int (n : Int)
  | uint (n : Nat)
  | uint64 (n : Nat)
  | str (s : String)
  | bool (b : Bool)
  | elem (name : String)
  | caps (width height : Int)
  | fmtTime
deriving DecidableEq, Repr

/-- Target of a property assignment: a named element or a compositor pad. -/
inductive Target where
  | node (name : String)
  | pad (name : String)
deriving DecidableEq, Repr

/-- One `set_property` (or `set_property_from_str`) call performed at build time. -/
structure PropSet where
  target : Target
  key : String
  value : PropValue
deriving DecidableEq, Repr

/-- Command-line arguments (struct `Args` in `main.rs`).
`eos_after`/`error_after` are `Option<i32>`, `discard_after` is `Option<u64>`. -/
structure Args where
  live_rtmp_uri : String
  eos_after : Option Int
  error_after : Option Int
  discard_after : Option Nat
deriving DecidableEq, Repr

/-- Side effects a bus-watch handler can perform. -/
inductive Action where
  | sleepMs (ms : Nat)
  | logErr (s : String)
  | logOut (s : String)
  | setState (pipe : String) (st : GstState)
  | setPipeProp (pipe key : String) (v : PropValue)
  | recalcLatency (pipe : String)
  | dotFile (name : String)
deriving DecidableEq, Repr

/-- Results of the fallible engine calls a handler makes: whether
`pipe.set_state`, the runtime `pipe.set_property("uri", ..)`,
`pipe.recalculate_latency()` and `stdout().flush()` succeed. -/
structure Env where
  set_state : GstState → Bool
  set_uri : Bool
  recalc : Bool
  flush : Bool

/-- Messages observed by the bus watches (`gst::MessageView`).
`stateChanged` carries the message source (compared against the pipeline)
and the new current state; `other` stands for every remaining message kind. -/
inductive MessageView where
  | error (detail : String)
  | buffering (percent : Int)
  | eos
  | latency
  | stateChanged (src : Option String) (current : GstState)
  | other
deriving DecidableEq, Repr

/-- The ingestion pipeline: `playbin3` was created with name "rtmp_source". -/
def rtmpPipeName : String := "rtmp_source"

/-- The compositing pipeline: `gst::Pipeline::new(Some("video_mixer"))`. -/
def mixerPipeName : String := "video_mixer"

/-- `gst::SECOND` in nanoseconds, the engine's native `ClockTime` unit. -/
def gstSECOND : Nat := 1000000000

/-- The ordered property assignments performed by `build_rtmp_pipeline`
(main.rs lines 48-58): the optional fault-injection properties on the
`identity name=id` pass-through node, then uri / video-sink / audio-sink
on the playbin. -/
def build_rtmp_props (args : Args) : List PropSet :=
  (match args.eos_after with
    | some n => [⟨.node "id", "eos-after", .int n⟩]
    | none => []) ++
  (match args.error_after with
    | some n => [⟨.node "id", "error-after", .int n⟩]
    | none => []) ++
  [⟨.node "rtmp_source", "uri", .str args.live_rtmp_uri⟩,
   ⟨.node "rtmp_source", "video-sink", .elem "vsink"⟩,
   ⟨.node "rtmp_source", "audio-sink", .elem "asink"⟩]

/-- The ordered property assignments performed by `build_compositor_pipeline`
(main.rs lines 112-145).  The live interpipe chain is linked to the compositor
first and owns pad "sink_0"; the videotestsrc fallback chain is linked second
and owns pad "sink_1". -/
def build_compositor_props (args : Args) : List PropSet :=
  [⟨.pad "sink_0", "zorder", .uint 1⟩,
   ⟨.pad "sink_0", "width", .int 1280⟩,
   ⟨.pad "sink_0", "height", .int 720⟩] ++
  (match args.discard_after with
    | some d => [⟨.pad "sink_0", "max-last-buffer-repeat", .uint64 (d * gstSECOND)⟩]
    | none => []) ++
  [⟨.node "interpipesrc", "listen-to", .str "rtmp"⟩,
   ⟨.node "interpipesrc", "format", .fmtTime⟩,
   ⟨.node "interpipesrc", "is-live", .bool true⟩,
   ⟨.node "interpipesrc", "stream-sync", .str "restart-ts"⟩,
   ⟨.node "xvimagesink", "qos", .bool false⟩,
   ⟨.node "videotestsrc", "is-live", .bool true⟩,
   ⟨.node "capsfilter", "caps", .caps 800 448⟩] ++
  [⟨.pad "sink_1", "zorder", .uint 0⟩,
   ⟨.pad "sink_1", "width", .int 1280⟩,
   ⟨.pad "sink_1", "height", .int 720⟩]

/-- All assignments of a given property key in a configuration, in order. -/
def keyEntries (cfg : List PropSet) (k : String) : List (Target × PropValue) :=
  cfg.filterMap (fun p => if p.key = k then some (p.target, p.value) else none)

/-- C2: For every compositor configuration produced by the compositing
supervisor, exactly one compositor input pad has z-order 0 (the fallback pad
"sink_1") and exactly one has z-order 1 (the live bridge-fed pad "sink_0"),
and both pads are configured with width 1280 and height 720, for every
`Args` (hence regardless of source resolution). -/
theorem compositor_zorder_invariant (args : Args) :
    keyEntries (build_compositor_props args) "zorder" =
      [(Target.pad "sink_0", PropValue.uint 1), (Target.pad "sink_1", PropValue.uint 0)] ∧
    keyEntries (build_compositor_props args) "width" =
      [(Target.pad "sink_0", PropValue.int 1280), (Target.pad "sink_1", PropValue.int 1280)] ∧
    keyEntries (build_compositor_props args) "height" =
      [(Target.pad "sink_0", PropValue.int 720), (Target.pad "sink_1", PropValue.int 720)] := by
  rcases args with ⟨u, e, r, d⟩
  cases d <;> simp [build_compositor_props, keyEntries]

/-- C6: The staleness limit ("max-last-buffer-repeat") is applied exactly when
`discard_after` is set, and then only on the live pad "sink_0" (the pad that
gets z-order 1), with the value converted from seconds to nanoseconds by
multiplying with `gst::SECOND`; when `discard_after` is unset no staleness
property is applied at all. -/
theorem discard_after_staleness (args : Args) :
    keyEntries (build_compositor_props args) "max-last-buffer-repeat" =
      (match args.discard_after with
        | some d => [(Target.pad "sink_0", PropValue.uint64 (d * gstSECOND))]
        | none => []) ∧
    (Target.pad "sink_0", PropValue.uint 1) ∈
      keyEntries (build_compositor_props args) "zorder" := by
  rcases args with ⟨u, e, r, d⟩
  cases d <;> simp [build_compositor_props, keyEntries]

/-- C9: During ingestion-graph construction, "eos-after" is applied to the
pass-through node "id" precisely when `args.eos_after` is set, and
"error-after" precisely when `args.error_after` is set; each equation depends
only on its own field, so the two are applied independently and neither
property is set when its field is absent. -/
theorem fault_injection_props (args : Args) :
    keyEntries (build_rtmp_props args) "eos-after" =
      (match args.eos_after with
        | some n => [(Target.node "id", PropValue.int n)]
        | none => []) ∧
    keyEntries (build_rtmp_props args) "error-after" =
      (match args.error_after with
        | some n => [(Target.node "id", PropValue.int n)]
        | none => []) := by
  rcases args with ⟨u, e, r, d⟩
  cases e <;> cases r <;> simp [build_rtmp_props, keyEntries]

/-- `default_handle_message` (main.rs lines 18-36): Latency prints and calls
`recalculate_latency().unwrap()` (panic when the call fails); StateChanged
whose source is the pipeline itself with current state Playing dumps a dot
file named "PLAYING-" plus the pipeline name; every other message is a no-op. -/
def default_handle_message (env : Env) (pipeName : String) (msg : MessageView) :
    Except String (List Action) :=
  match msg with
  | .latency =>
    if env.recalc then
      .ok [.logOut "Recalculating latency!", .recalcLatency pipeName]
    else
      .error "panic: recalculate_latency failed"
  | .stateChanged src current =>
    .ok (if src = some pipeName ∧ current = GstState.playing then
          [.dotFile ("PLAYING-" ++ pipeName)]
        else [])
  | _ => .ok []

/-- `restart_pipeline` (main.rs lines 158-162): set the pipeline to Null,
re-apply the uri, set it to Playing; each call is followed by `.unwrap()`,
so a failing call panics before the later calls run. -/
def restart_pipeline (env : Env) (uri : String) (pipeName : String) :
    Except String (List Action) :=
  if env.set_state GstState.null then
    if env.set_uri then
      if env.set_state GstState.playing then
        .ok [.setState pipeName .null,
             .setPipeProp pipeName "uri" (.str uri),
             .setState pipeName .playing]
      else .error "panic: set_state(Playing) failed"
    else .error "panic: set_property(uri) failed"
  else .error "panic: set_state(Null) failed"

/-- The bus-watch closure registered by `build_rtmp_pipeline`
(main.rs lines 65-95), with `uri` the value it captured at build time.
Error: sleep 1000 ms, log, restart.  Buffering: print the percent, flush
(logging on flush failure), then `let _ = set_state(Paused)` when the percent
is below 100 and `let _ = set_state(Playing)` otherwise, with both results
discarded.  Eos: log, restart with no sleep.  Everything else is delegated to
`default_handle_message`. -/
def rtmp_bus_watch (env : Env) (uri : String) (msg : MessageView) :
    Except String (List Action) :=
  match msg with
  | .error detail =>
    match restart_pipeline env uri rtmpPipeName with
    | .ok acts =>
      .ok ([.sleepMs 1000,
            .logErr ("Error: " ++ detail ++ ", restarting pipeline")] ++ acts)
    | .error e => .error e
  | .buffering percent =>
    .ok ([.logOut ("Buffering (" ++ toString percent ++ "%)\r")] ++
         (if env.flush then [] else [.logErr "Failed: flush"]) ++
         (if percent < 100 then [.setState rtmpPipeName .paused]
          else [.setState rtmpPipeName .playing]))
  | .eos =>
    match restart_pipeline env uri rtmpPipeName with
    | .ok acts => .ok (.logErr "We are EOS" :: acts)
    | .error e => .error e
  | _ => default_handle_message env rtmpPipeName msg

/-- The ingestion bus watch as installed at build time: the captured uri is
the `live_rtmp_uri` of the `Args` given to `build_rtmp_pipeline`. -/
def build_rtmp_handler (args : Args) (env : Env) (msg : MessageView) :
    Except String (List Action) :=
  rtmp_bus_watch env args.live_rtmp_uri msg

/-- The bus-watch closure registered by `build_compositor_pipeline`
(main.rs lines 149-153): it only calls `default_handle_message`. -/
def compositor_bus_watch (env : Env) (msg : MessageView) :
    Except String (List Action) :=
  default_handle_message env mixerPipeName msg

/-- Actions of a handler outcome; a panic yields no completed handler trace. -/
def actsOf (e : Except String (List Action)) : List Action :=
  match e with
  | .ok acts => acts
  | .error _ => []

/-- Number of `set_state(Paused)` calls in a trace. -/
def pauseCalls (acts : List Action) : Nat :=
  acts.countP (fun a => match a with | .setState _ .paused => true | _ => false)

/-- Number of `set_state(Playing)` calls in a trace. -/
def resumeCalls (acts : List Action) : Nat :=
  acts.countP (fun a => match a with | .setState _ .playing => true | _ => false)

/-- Number of `set_state` calls of any kind in a trace. -/
def stateChangeCalls (acts : List Action) : Nat :=
  acts.countP (fun a => match a with | .setState _ _ => true | _ => false)

/-- Whether an action observably touches the pipeline named `pipe`. -/
def touchesPipe (pipe : String) (a : Action) : Bool :=
  match a with
  | .setState p _ => p = pipe
  | .setPipeProp p _ _ => p = pipe
  | .recalcLatency p => p = pipe
  | _ => false

/-- Whether the three engine calls of `restart_pipeline` all succeed. -/
def restartCallsOk (env : Env) : Bool :=
  env.set_state GstState.null && env.set_uri && env.set_state GstState.playing

/-- Run-state of a pipeline after a trace of actions (only `setState` moves it). -/
def applyActs (s : GstState) (acts : List Action) : GstState :=
  acts.foldl (fun s a => match a with | .setState _ st => st | _ => s) s

/-- An environment in which every engine call succeeds. -/
def envOk : Env := ⟨fun _ => true, true, true, true⟩

/-- An environment in which `set_state` fails (so the first restart call,
`set_state(Null)`, returns an error and its `.unwrap()` panics). -/
def envStopFails : Env := ⟨fun _ => false, true, true, true⟩

/-- Concrete arguments used by witnesses and counterexamples. -/
def argsEx : Args := ⟨"rtmp://example/live", none, none, none⟩

/-- C1: When the restart engine calls succeed, the ingestion handler reacts to
an Error event by exactly: sleeping the fixed 1000 ms throttle, logging, then
stopping the graph, re-applying the build-time `live_rtmp_uri` (the captured
value, not a later one), and starting the graph — in that order and nothing
else. -/
theorem error_throttled_restart (env : Env) (args : Args) (detail : String)
    (h0 : env.set_state GstState.null = true) (h1 : env.set_uri = true)
    (h2 : env.set_state GstState.playing = true) :
    build_rtmp_handler args env (.error detail) =
      .ok [.sleepMs 1000,
           .logErr ("Error: " ++ detail ++ ", restarting pipeline"),
           .setState rtmpPipeName .null,
           .setPipeProp rtmpPipeName "uri" (.str args.live_rtmp_uri),
           .setState rtmpPipeName .playing] := by
  simp [build_rtmp_handler, rtmp_bus_watch, restart_pipeline, h0, h1, h2]

/-- Witness for `error_throttled_restart` at a concrete environment and input. -/
theorem error_throttled_restart_witness :
    build_rtmp_handler argsEx envOk (.error "boom") =
      .ok [.sleepMs 1000,
           .logErr "Error: boom, restarting pipeline",
           .setState rtmpPipeName .null,
           .setPipeProp rtmpPipeName "uri" (.str "rtmp://example/live"),
           .setState rtmpPipeName .playing] :=
  error_throttled_restart envOk argsEx "boom" rfl rfl rfl

/-- C5 counterexample: an EndOfStream event whose restart hits a failing
engine call does terminate the process — with `set_state` failing, the
`.unwrap()` on the stop call inside `restart_pipeline` panics, so
"EndOfStream is never terminal for the process" is false as stated. -/
theorem eos_can_panic :
    build_rtmp_handler argsEx envStopFails .eos =
      .error "panic: set_state(Null) failed" := by
  rfl

/-- C5 amended: the ingestion handler reacts to EndOfStream by logging and
restarting immediately: the trace is exactly log, stop, re-apply the
build-time uri, start, and contains no sleep action at all (no throttle
delay); provided the restart's stop, URI re-apply and start engine calls
succeed the handler returns normally, so EndOfStream is then not terminal
for the process (a failing call panics, as for Error recovery). -/
theorem eos_immediate_restart (env : Env) (args : Args)
    (h0 : env.set_state GstState.null = true) (h1 : env.set_uri = true)
    (h2 : env.set_state GstState.playing = true) :
    build_rtmp_handler args env .eos =
      .ok [.logErr "We are EOS",
           .setState rtmpPipeName .null,
           .setPipeProp rtmpPipeName "uri" (.str args.live_rtmp_uri),
           .setState rtmpPipeName .playing] ∧
    ∀ ms, Action.sleepMs ms ∉ actsOf (build_rtmp_handler args env .eos) := by
  constructor
  · simp [build_rtmp_handler, rtmp_bus_watch, restart_pipeline, h0, h1, h2]
  · intro ms
    simp [build_rtmp_handler, rtmp_bus_watch, restart_pipeline, h0, h1, h2, actsOf]

/-- Witness for `eos_immediate_restart` at a concrete environment. -/
theorem eos_immediate_restart_witness :
    build_rtmp_handler argsEx envOk .eos =
      .ok [.logErr "We are EOS",
           .setState rtmpPipeName .null,
           .setPipeProp rtmpPipeName "uri" (.str "rtmp://example/live"),
           .setState rtmpPipeName .playing] :=
  (eos_immediate_restart envOk argsEx rfl rfl rfl).1

/-- Whether an action leaves every pipeline other than `pipe` untouched:
logging, sleeping and dot-file dumps touch no pipeline at all. -/
def localTo (pipe : String) (a : Action) : Bool :=
  match a with
  | .setState p _ => p == pipe
  | .setPipeProp p _ _ => p == pipe
  | .recalcLatency p => p == pipe
  | _ => true

lemma restart_pipeline_ok_shape (env : Env) (uri p : String) (l : List Action)
    (h : restart_pipeline env uri p = .ok l) :
    l = [.setState p .null, .setPipeProp p "uri" (.str uri), .setState p .playing] := by
  unfold restart_pipeline at h
  split at h
  · split at h
    · split at h
      · cases h; rfl
      · cases h
    · cases h
  · cases h

lemma rtmp_actions_local (env : Env) (uri : String) (msg : MessageView)
    (acts : List Action) (h : rtmp_bus_watch env uri msg = .ok acts) :
    ∀ a ∈ acts, localTo rtmpPipeName a = true := by
  intro a ha
  cases msg with
  | error d =>
    simp only [rtmp_bus_watch] at h
    cases hres : restart_pipeline env uri rtmpPipeName with
    | ok l =>
      rw [hres] at h
      cases h
      rcases restart_pipeline_ok_shape env uri rtmpPipeName l hres with rfl
      fin_cases ha <;> rfl
    | error e => rw [hres] at h; cases h
  | buffering p =>
    simp only [rtmp_bus_watch] at h
    cases h
    rcases hf : env.flush <;> by_cases hp : p < 100 <;>
      simp [hf, hp, List.mem_append] at ha <;>
      rcases ha with rfl | rfl | rfl <;> rfl
  | eos =>
    simp only [rtmp_bus_watch] at h
    cases hres : restart_pipeline env uri rtmpPipeName with
    | ok l =>
      rw [hres] at h
      cases h
      rcases restart_pipeline_ok_shape env uri rtmpPipeName l hres with rfl
      fin_cases ha <;> rfl
    | error e => rw [hres] at h; cases h
  | latency =>
    simp only [rtmp_bus_watch, default_handle_message] at h
    rcases hr : env.recalc <;> rw [hr] at h <;> simp at h
    rcases h with rfl
    fin_cases ha <;> rfl
  | stateChanged src cur =>
    simp only [rtmp_bus_watch, default_handle_message] at h
    cases h
    by_cases hc : src = some rtmpPipeName ∧ cur = GstState.playing <;>
      simp [hc] at ha
    rcases ha with rfl
    rfl
  | other =>
    simp only [rtmp_bus_watch, default_handle_message] at h
    cases h
    cases ha

lemma localTo_rtmp_not_mixer (a : Action) (h : localTo rtmpPipeName a = true) :
    touchesPipe mixerPipeName a = false := by
  cases a <;> simp_all [localTo, touchesPipe, rtmpPipeName, mixerPipeName]

/-- C3 counterexample: for the buffering sequence [30, 60, 100] the claim
"exactly one pause call over the sequence, one resume, and no state-change
call at the 60% event" is false: the code issues `set_state(Paused)` at every
percent below 100, so the 60% event also issues a pause (two pause calls in
total and one state-change call at 60%). -/
theorem buffering_sixty_counterexample :
    ¬ (pauseCalls (actsOf (build_rtmp_handler argsEx envOk (.buffering 30)) ++
         (actsOf (build_rtmp_handler argsEx envOk (.buffering 60)) ++
          actsOf (build_rtmp_handler argsEx envOk (.buffering 100)))) = 1 ∧
       resumeCalls (actsOf (build_rtmp_handler argsEx envOk (.buffering 30)) ++
         (actsOf (build_rtmp_handler argsEx envOk (.buffering 60)) ++
          actsOf (build_rtmp_handler argsEx envOk (.buffering 100)))) = 1 ∧
       stateChangeCalls (actsOf (build_rtmp_handler argsEx envOk (.buffering 60))) = 0) := by
  decide

/-- C3 amended: for the buffering percent sequence [30, 60, 100] the handler
issues exactly one pause call at the 30% event, exactly one further pause call
at the 60% event (its only state-change call, a no-op on the run-state since
the graph is already Paused), and exactly one resume call at the 100% event;
the run-state follows Running → Paused → Paused → Running. -/
theorem buffering_pause_resume (env : Env) (args : Args) :
    pauseCalls (actsOf (build_rtmp_handler args env (.buffering 30))) = 1 ∧
    stateChangeCalls (actsOf (build_rtmp_handler args env (.buffering 30))) = 1 ∧
    pauseCalls (actsOf (build_rtmp_handler args env (.buffering 60))) = 1 ∧
    stateChangeCalls (actsOf (build_rtmp_handler args env (.buffering 60))) = 1 ∧
    resumeCalls (actsOf (build_rtmp_handler args env (.buffering 100))) = 1 ∧
    stateChangeCalls (actsOf (build_rtmp_handler args env (.buffering 100))) = 1 ∧
    applyActs GstState.playing (actsOf (build_rtmp_handler args env (.buffering 30))) =
      GstState.paused ∧
    applyActs GstState.paused (actsOf (build_rtmp_handler args env (.buffering 60))) =
      GstState.paused ∧
    applyActs GstState.paused (actsOf (build_rtmp_handler args env (.buffering 100))) =
      GstState.playing := by
  cases hf : env.flush <;>
    simp [build_rtmp_handler, rtmp_bus_watch, hf, actsOf, pauseCalls, resumeCalls,
      stateChangeCalls, applyActs, List.countP_cons, List.countP_nil]

/-- C4 counterexample: a runtime Error whose recovery hits a failing engine
call does terminate the process — with `set_state` failing, the `.unwrap()`
on the stop call inside `restart_pipeline` panics. -/
theorem error_recovery_can_panic :
    build_rtmp_handler argsEx envStopFails (.error "boom") =
      .error "panic: set_state(Null) failed" := by
  rfl

/-- C4 amended: provided the stop, URI re-apply and start engine calls
succeed, a runtime Error from the ingestion graph is handled locally (logged
and restarted) without terminating the process, and no action of the handler
touches any pipeline other than the ingestion graph's own. -/
theorem error_recovery_local (env : Env) (args : Args) (detail : String)
    (h0 : env.set_state GstState.null = true) (h1 : env.set_uri = true)
    (h2 : env.set_state GstState.playing = true) :
    (build_rtmp_handler args env (.error detail)).isOk = true ∧
    ∀ a ∈ actsOf (build_rtmp_handler args env (.error detail)),
      touchesPipe mixerPipeName a = false := by
  have hh : build_rtmp_handler args env (.error detail) =
      .ok [.sleepMs 1000,
           .logErr ("Error: " ++ detail ++ ", restarting pipeline"),
           .setState rtmpPipeName .null,
           .setPipeProp rtmpPipeName "uri" (.str args.live_rtmp_uri),
           .setState rtmpPipeName .playing] := by
    simp [build_rtmp_handler, rtmp_bus_watch, restart_pipeline, h0, h1, h2]
  refine ⟨by rw [hh]; rfl, ?_⟩
  intro a ha
  exact localTo_rtmp_not_mixer a
    (rtmp_actions_local env args.live_rtmp_uri (.error detail) _ hh (a := a)
      (by rw [hh] at ha; exact ha))

/-- Witness for `error_recovery_local` at a concrete environment and input. -/
theorem error_recovery_local_witness :
    (build_rtmp_handler argsEx envOk (.error "boom")).isOk = true ∧
    touchesPipe mixerPipeName (Action.setState rtmpPipeName GstState.null) = false :=
  ⟨(error_recovery_local envOk argsEx "boom" rfl rfl rfl).1,
   (error_recovery_local envOk argsEx "boom" rfl rfl rfl).2
     (Action.setState rtmpPipeName GstState.null) (by decide)⟩

/-- C7: the Shared Event Reactor triggers latency recalculation on the owning
graph for a Latency event (when the engine call succeeds); emits exactly one
topology dot-file diagnostic for a StateChanged event whose source is the
graph's own root and whose current state is Playing, and nothing for any
other StateChanged event; and is a no-op producing no actions at all (hence
never logging an error) for every other event kind. -/
theorem shared_reactor_dispatch (env : Env) (p : String) :
    (env.recalc = true →
      default_handle_message env p .latency =
        .ok [.logOut "Recalculating latency!", .recalcLatency p]) ∧
    default_handle_message env p (.stateChanged (some p) .playing) =
      .ok [.dotFile ("PLAYING-" ++ p)] ∧
    (∀ src cur, ¬(src = some p ∧ cur = GstState.playing) →
      default_handle_message env p (.stateChanged src cur) = .ok []) ∧
    (∀ d, default_handle_message env p (.error d) = .ok []) ∧
    (∀ n, default_handle_message env p (.buffering n) = .ok []) ∧
    default_handle_message env p .eos = .ok [] ∧
    default_handle_message env p .other = .ok [] := by
  refine ⟨fun hr => by simp [default_handle_message, hr], ?_, ?_, ?_, ?_, rfl, rfl⟩
  · simp [default_handle_message]
  · intro src cur hc
    simp only [default_handle_message]
    rw [if_neg hc]
  · intro d; rfl
  · intro n; rfl

/-- Witness for `shared_reactor_dispatch`, discharging both hypotheses at
concrete inputs. -/
theorem shared_reactor_dispatch_witness :
    default_handle_message envOk "video_mixer" .latency =
      .ok [.logOut "Recalculating latency!", .recalcLatency "video_mixer"] ∧
    default_handle_message envOk "video_mixer"
      (.stateChanged (some "video_mixer") .paused) = .ok [] :=
  ⟨(shared_reactor_dispatch envOk "video_mixer").1 rfl,
   (shared_reactor_dispatch envOk "video_mixer").2.2.1
     (some "video_mixer") GstState.paused (by decide)⟩

/-- C8: the compositing supervisor registers only the Shared Event Reactor,
so Error, EndOfStream and Buffering events on the compositing graph produce
no actions at all (no restart, pause or state change); and every action an
ingestion-handler run produces leaves the compositing pipeline untouched, so
an ingestion-graph recovery has no observable effect on the compositing
graph's state. -/
theorem compositor_no_recovery (env : Env) :
    (∀ d, compositor_bus_watch env (.error d) = .ok []) ∧
    compositor_bus_watch env .eos = .ok [] ∧
    (∀ n, compositor_bus_watch env (.buffering n) = .ok []) ∧
    (∀ args msg acts, build_rtmp_handler args env msg = .ok acts →
      ∀ a ∈ acts, touchesPipe mixerPipeName a = false) := by
  refine ⟨fun d => rfl, rfl, fun n => rfl, ?_⟩
  intro args msg acts h a ha
  exact localTo_rtmp_not_mixer a (rtmp_actions_local env args.live_rtmp_uri msg acts h a ha)

/-- Witness for `compositor_no_recovery` at a concrete environment, message
and action. -/
theorem compositor_no_recovery_witness :
    compositor_bus_watch envOk (.error "boom") = .ok [] ∧
    touchesPipe mixerPipeName (Action.setState rtmpPipeName GstState.null) = false :=
  ⟨(compositor_no_recovery envOk).1 "boom",
   (compositor_no_recovery envOk).2.2.2 argsEx (.error "x")
     [.sleepMs 1000,
      .logErr "Error: x, restarting pipeline",
      .setState rtmpPipeName .null,
      .setPipeProp rtmpPipeName "uri" (.str "rtmp://example/live"),
      .setState rtmpPipeName .playing] rfl
     (Action.setState rtmpPipeName GstState.null) (by decide)⟩

/-- C10: the Buffering branch discards the result of its pause/resume
`set_state` call, so the handler completes normally for every percent in every
environment; by contrast, when any of the restart path's stop, URI re-apply or
start calls fails, the Error and EndOfStream handlers panic (aborting the
process). -/
theorem buffering_result_discarded (env : Env) (args : Args) :
    (∀ p, (build_rtmp_handler args env (.buffering p)).isOk = true) ∧
    (restartCallsOk env = false →
      (∀ d, (build_rtmp_handler args env (.error d)).isOk = false) ∧
      (build_rtmp_handler args env .eos).isOk = false) := by
  constructor
  · intro p
    cases hf : env.flush <;> by_cases hp : p < 100 <;>
      simp [build_rtmp_handler, rtmp_bus_watch, hf, hp, Except.isOk, Except.toBool]
  · intro h
    have hshape : restartCallsOk env = false → ∀ uri p,
        ∃ e, restart_pipeline env uri p = .error e := by
      intro hc uri p
      unfold restart_pipeline
      unfold restartCallsOk at hc
      cases hn : env.set_state GstState.null <;>
        cases hu : env.set_uri <;>
        cases hpl : env.set_state GstState.playing <;>
        simp [hn, hu, hpl] at hc ⊢
    constructor
    · intro d
      rcases hshape h args.live_rtmp_uri rtmpPipeName with ⟨e, he⟩
      simp [build_rtmp_handler, rtmp_bus_watch, he, Except.isOk, Except.toBool]
    · rcases hshape h args.live_rtmp_uri rtmpPipeName with ⟨e, he⟩
      simp [build_rtmp_handler, rtmp_bus_watch, he, Except.isOk, Except.toBool]

/-- Witness for `buffering_result_discarded` at a concrete failing
environment. -/
theorem buffering_result_discarded_witness :
    (build_rtmp_handler argsEx envStopFails (.buffering 30)).isOk = true ∧
    (build_rtmp_handler argsEx envStopFails (.error "x")).isOk = false :=
  ⟨(buffering_result_discarded envStopFails argsEx).1 30,
   ((buffering_result_discarded envStopFails argsEx).2 rfl).1 "x"⟩

end RtmpSlate
